import Mathlib

/-!
Shallow embedding of `src/pandera/dtypes.py`: the `PandasDtype` enumeration,
its derived `str_alias` attribute, the inverse lookups `from_str_alias` and
`from_pandas_api_type`, and the custom `__eq__` operation.

The two platform-dependent module constants `_DEFAULT_PANDAS_INT_TYPE` and
`_DEFAULT_PANDAS_FLOAT_TYPE` (computed at import time by probing pandas) are
modelled as an explicit environment record `DtypesEnv`, so every statement is
parametric in the platform defaults.

Python dictionary-literal `.get` lookups are modelled as association-list
lookups (`List.lookup` / `Option.getD`), keeping the key/value pairs in the
source order.  `__eq__`, which can raise `AttributeError` when the comparand
lacks the `value` / `str_alias` attributes, is modelled over a small universe
`PyVal` of possible comparands (a dtype, `None`, a plain string, a plain
number) with attribute access returning `Except`.
-/

namespace Pandera

/-- The two process-wide cached platform-default dtype strings, computed in the
source as `str(pd.Series([1]).dtype)` and `str(pd.Series([1.]).dtype)`. -/
structure DtypesEnv where
  _DEFAULT_PANDAS_INT_TYPE : String
  _DEFAULT_PANDAS_FLOAT_TYPE : String
deriving DecidableEq, Repr

/-- The `PandasDtype` enumeration: one constructor per enum member. -/
inductive PandasDtype
  | Bool
  | DateTime
  | Timedelta
  | Category
  | Float
  | Float16
  | Float32
  | Float64
  | Int
  | Int8
  | Int16
  | Int32
  | Int64
  | UInt8
  | UInt16
  | UInt32
  | UInt64
  | Object
  | String
deriving DecidableEq, Repr, Fintype

/-- Reducible alias for `String`, needed in signatures inside the
`PandasDtype` namespace where `String` names the enum constructor. -/
abbrev Str := String

/-- Reducible alias for `Bool`, for the same reason. -/
abbrev Boolean := Bool

/-- The declared string value of each enum member (`self.value`). -/
def PandasDtype.value : PandasDtype → Str
  | .Bool => "bool"
  | .DateTime => "datetime64[ns]"
  | .Timedelta => "timedelta64[ns]"
  | .Category => "category"
  | .Float => "float"
  | .Float16 => "float16"
  | .Float32 => "float32"
  | .Float64 => "float64"
  | .Int => "int"
  | .Int8 => "int8"
  | .Int16 => "int16"
  | .Int32 => "int32"
  | .Int64 => "int64"
  | .UInt8 => "uint8"
  | .UInt16 => "uint16"
  | .UInt32 => "uint32"
  | .UInt64 => "uint64"
  | .Object => "object"
  | .String => "string"

/-- `PandasDtype.str_alias`: the dict-literal `.get(self.value, self.value)`
with keys `"int"`, `"float"`, `"string"`. -/
def PandasDtype.str_alias (env : DtypesEnv) (self : PandasDtype) : Str :=
  (List.lookup self.value
    [("int", env._DEFAULT_PANDAS_INT_TYPE),
     ("float", env._DEFAULT_PANDAS_FLOAT_TYPE),
     ("string", "object")]).getD self.value

/-- `PandasDtype.from_str_alias`: the 19-key dict-literal `.get(str_alias)`,
returning `None` (here `none`) on a miss. -/
def PandasDtype.from_str_alias (str_alias : Str) : Option PandasDtype :=
  List.lookup str_alias
    [("bool", PandasDtype.Bool),
     ("datetime64[ns]", PandasDtype.DateTime),
     ("timedelta64[ns]", PandasDtype.Timedelta),
     ("category", PandasDtype.Category),
     ("float", PandasDtype.Float),
     ("float16", PandasDtype.Float16),
     ("float32", PandasDtype.Float32),
     ("float64", PandasDtype.Float64),
     ("int", PandasDtype.Int),
     ("int8", PandasDtype.Int8),
     ("int16", PandasDtype.Int16),
     ("int32", PandasDtype.Int32),
     ("int64", PandasDtype.Int64),
     ("uint8", PandasDtype.UInt8),
     ("uint16", PandasDtype.UInt16),
     ("uint32", PandasDtype.UInt32),
     ("uint64", PandasDtype.UInt64),
     ("object", PandasDtype.Object),
     ("string", PandasDtype.String)]

/-- Python `self.startswith(pre)`: `self` begins with the characters of
`pre`.  Modelled on the character lists so that it evaluates by `decide`. -/
def startswith (self pre : Str) : Boolean :=
  pre.data.isPrefixOf self.data

/-- `PandasDtype.from_pandas_api_type`: the `startswith("mixed")` guard
followed by the 9-key dict-literal `.get(pandas_api_type)`. -/
def PandasDtype.from_pandas_api_type (pandas_api_type : Str) :
    Option PandasDtype :=
  if startswith pandas_api_type "mixed" then some PandasDtype.Object
  else
    List.lookup pandas_api_type
      [("string", PandasDtype.String),
       ("floating", PandasDtype.Float),
       ("integer", PandasDtype.Int),
       ("categorical", PandasDtype.Category),
       ("boolean", PandasDtype.Bool),
       ("datetime64", PandasDtype.DateTime),
       ("datetime", PandasDtype.DateTime),
       ("timedelta64", PandasDtype.Timedelta),
       ("timedelta", PandasDtype.Timedelta)]

/-- The universe of comparands `other` that `__eq__` may receive: a dtype tag,
`None`, a plain Python string, or a plain Python integer. -/
inductive PyVal
  | none
  | dtype (d : PandasDtype)
  | pyStr (s : String)
  | pyInt (n : Int)
deriving DecidableEq, Repr

/-- Python attribute access `other.value`: succeeds only on a dtype tag,
otherwise raises `AttributeError` (modelled as `Except.error` carrying the
missing attribute name). -/
def PyVal.getattr_value : PyVal → Except String String
  | .dtype d => Except.ok d.value
  | _ => Except.error "value"

/-- Python attribute access `other.str_alias`: succeeds only on a dtype tag,
otherwise raises `AttributeError`. -/
def PyVal.getattr_str_alias (env : DtypesEnv) : PyVal → Except String String
  | .dtype d => Except.ok (d.str_alias env)
  | _ => Except.error "str_alias"

/-- `PandasDtype.__eq__`: `other is None` check first, then the
`self.value == "string"` branch comparing declared values, otherwise the
comparison of resolved `str_alias` strings.  Attribute errors on the comparand
propagate as `Except.error`. -/
def PandasDtype.eq (env : DtypesEnv) (self : PandasDtype) (other : PyVal) :
    Except Str Boolean :=
  match other with
  | PyVal.none => Except.ok false
  | _ =>
    if self.value == "string" then
      other.getattr_value.map (fun v => self.value == v)
    else
      other.getattr_str_alias env |>.map (fun v => self.str_alias env == v)

/-! ## Theorems -/

/-- A string absent from every key of an association list is not looked up. -/
theorem lookup_str_eq_none {α : Type} {s : String} {l : List (String × α)}
    (h : ∀ p ∈ l, s ≠ p.1) : List.lookup s l = none := by
  induction l with
  | nil => rfl
  | cons kv tl ih =>
    have h1 : s ≠ kv.1 := h kv (List.mem_cons_self kv tl)
    simp only [List.lookup, beq_false_of_ne h1]
    exact ih fun p hp => h p (List.mem_cons_of_mem kv hp)

/-- C3: `str_alias` is a pure total function on the closed variant set,
mapping `Int` to the cached platform-default integer string, `Float` to the
cached platform-default float string, `String` to `"object"`, and every other
variant to its own declared string value; being a total Lean function it never
fails. -/
theorem str_alias_total_spec :
    ∀ env : DtypesEnv,
      PandasDtype.Int.str_alias env = env._DEFAULT_PANDAS_INT_TYPE ∧
      PandasDtype.Float.str_alias env = env._DEFAULT_PANDAS_FLOAT_TYPE ∧
      PandasDtype.String.str_alias env = "object" ∧
      ∀ v : PandasDtype,
        v ≠ PandasDtype.Int → v ≠ PandasDtype.Float → v ≠ PandasDtype.String →
        v.str_alias env = v.value := by
  intro env
  refine ⟨rfl, rfl, rfl, ?_⟩
  intro v h1 h2 h3
  cases v <;> first
    | rfl
    | exact absurd rfl h1
    | exact absurd rfl h2
    | exact absurd rfl h3

/-- C7: `Int == Int` is true; `Int == Float` is false whenever the cached
default integer string differs from the cached default float string;
`String == Object` is false; and comparing any tag to `None` is false. -/
theorem eq_basic_examples (env : DtypesEnv)
    (h : env._DEFAULT_PANDAS_INT_TYPE ≠ env._DEFAULT_PANDAS_FLOAT_TYPE) :
    PandasDtype.Int.eq env (PyVal.dtype PandasDtype.Int) = Except.ok true ∧
    PandasDtype.Int.eq env (PyVal.dtype PandasDtype.Float) = Except.ok false ∧
    PandasDtype.String.eq env (PyVal.dtype PandasDtype.Object) =
      Except.ok false ∧
    ∀ t : PandasDtype, t.eq env PyVal.none = Except.ok false := by
  refine ⟨?_, ?_, rfl, fun t => rfl⟩
  · simp [PandasDtype.eq, PandasDtype.str_alias, PandasDtype.value,
      PyVal.getattr_str_alias, List.lookup, Except.map]
  · simp [PandasDtype.eq, PandasDtype.str_alias, PandasDtype.value,
      PyVal.getattr_str_alias, List.lookup, Except.map, h]

/-- Witness for C7 at the 64-bit platform defaults. -/
theorem eq_basic_examples_witness :
    PandasDtype.Int.eq ⟨"int64", "float64"⟩ (PyVal.dtype PandasDtype.Float) =
      Except.ok false :=
  (eq_basic_examples ⟨"int64", "float64"⟩ (by decide)).2.1

/-- C8: `from_str_alias` maps `"category"` to `Category`, `"object"` to
`Object`, and `"string"` to `String`, even though `String`'s own `str_alias`
resolves to `"object"`: the forward and inverse maps are asymmetric on the
`String` variant. -/
theorem from_str_alias_examples :
    ∀ env : DtypesEnv,
      PandasDtype.from_str_alias "category" = some PandasDtype.Category ∧
      PandasDtype.from_str_alias "object" = some PandasDtype.Object ∧
      PandasDtype.from_str_alias "string" = some PandasDtype.String ∧
      PandasDtype.String.str_alias env = "object" :=
  fun _ => ⟨rfl, rfl, rfl, rfl⟩

/-- C9: the equality operation is not symmetric: `Object == String` is true
(the `"string"` special case is tested only on the left operand, so the
resolved strings `"object"` and `"object"` are compared), while
`String == Object` is false; in particular a pair with `a == b` but not
`b == a` exists. -/
theorem eq_not_symmetric :
    ∀ env : DtypesEnv,
      PandasDtype.Object.eq env (PyVal.dtype PandasDtype.String) =
        Except.ok true ∧
      PandasDtype.String.eq env (PyVal.dtype PandasDtype.Object) =
        Except.ok false ∧
      ∃ a b : PandasDtype,
        a.eq env (PyVal.dtype b) = Except.ok true ∧
        b.eq env (PyVal.dtype a) = Except.ok false :=
  fun _ => ⟨rfl, rfl, PandasDtype.Object, PandasDtype.String, rfl, rfl⟩

/-- C1: `a == b` is characterised by: `b` absent gives `false`; when `a`'s
declared value is `"string"` the result is true exactly when `b`'s declared
value is literally `"string"`; otherwise the result is true exactly when the
resolved canonical strings (`str_alias`) coincide — in particular `Int`
compares equal to any concrete-width integer variant whose string equals the
cached platform-default integer string, and likewise `Float` for the cached
default float string. -/
theorem eq_characterization :
    ∀ (env : DtypesEnv) (a : PandasDtype),
      a.eq env PyVal.none = Except.ok false ∧
      (∀ b : PandasDtype,
        (a.eq env (PyVal.dtype b) = Except.ok true ↔
          if a.value = "string" then b.value = "string"
          else a.str_alias env = b.str_alias env)) ∧
      (∀ w : PandasDtype,
        w ∈ [PandasDtype.Int8, PandasDtype.Int16, PandasDtype.Int32,
          PandasDtype.Int64] →
        w.value = env._DEFAULT_PANDAS_INT_TYPE →
        PandasDtype.Int.eq env (PyVal.dtype w) = Except.ok true) ∧
      (∀ w : PandasDtype,
        w ∈ [PandasDtype.Float16, PandasDtype.Float32, PandasDtype.Float64] →
        w.value = env._DEFAULT_PANDAS_FLOAT_TYPE →
        PandasDtype.Float.eq env (PyVal.dtype w) = Except.ok true) := by
  intro env a
  refine ⟨rfl, ?_, ?_, ?_⟩
  · intro b
    by_cases h : a.value = "string"
    · simp only [PandasDtype.eq, PyVal.getattr_value, Except.map, h,
        if_pos, beq_self_eq_true, if_true, Except.ok.injEq, beq_iff_eq]
      exact eq_comm
    · simp [PandasDtype.eq, PyVal.getattr_str_alias, Except.map,
        beq_false_of_ne h, h]
  · intro w hw hv
    fin_cases hw <;>
      simp only [PandasDtype.value] at hv <;>
      simp [PandasDtype.eq, PandasDtype.str_alias, PandasDtype.value,
        PyVal.getattr_str_alias, Except.map, List.lookup, ← hv]
  · intro w hw hv
    fin_cases hw <;>
      simp only [PandasDtype.value] at hv <;>
      simp [PandasDtype.eq, PandasDtype.str_alias, PandasDtype.value,
        PyVal.getattr_str_alias, Except.map, List.lookup, ← hv]

/-- C4: under the precondition that the cached platform defaults are among
the recognized concrete-width keys, `from_str_alias (str_alias v)` returns a
variant whose resolved canonical string equals `str_alias v`, for every
variant `v`; and for `Int` and `Float` the recovered variant is the
concrete-width variant named by the platform-default string, not `Int` or
`Float` themselves. -/
theorem round_trip (env : DtypesEnv)
    (hI : env._DEFAULT_PANDAS_INT_TYPE ∈ ["int8", "int16", "int32", "int64"])
    (hF : env._DEFAULT_PANDAS_FLOAT_TYPE ∈ ["float16", "float32", "float64"]) :
    (∀ v : PandasDtype, ∃ w : PandasDtype,
      PandasDtype.from_str_alias (v.str_alias env) = some w ∧
      w.str_alias env = v.str_alias env) ∧
    (∃ w : PandasDtype,
      PandasDtype.from_str_alias (PandasDtype.Int.str_alias env) = some w ∧
      w ≠ PandasDtype.Int ∧ w.value = env._DEFAULT_PANDAS_INT_TYPE) ∧
    (∃ w : PandasDtype,
      PandasDtype.from_str_alias (PandasDtype.Float.str_alias env) = some w ∧
      w ≠ PandasDtype.Float ∧ w.value = env._DEFAULT_PANDAS_FLOAT_TYPE) := by
  obtain ⟨dI, dF⟩ := env
  simp only [List.mem_cons, List.mem_singleton, List.not_mem_nil,
    or_false] at hI hF
  rcases hI with h | h | h | h <;> subst h <;>
    rcases hF with h | h | h <;> subst h <;> decide

/-- Witness for C4 at the 64-bit platform defaults. -/
theorem round_trip_witness :
    ∃ w : PandasDtype,
      PandasDtype.from_str_alias
        (PandasDtype.Int.str_alias ⟨"int64", "float64"⟩) = some w ∧
      w ≠ PandasDtype.Int ∧ w.value = "int64" :=
  (round_trip ⟨"int64", "float64"⟩ (by decide) (by decide)).2.1

/-- C5: any input beginning with `"mixed"` resolves to `Object`, before and
regardless of the table; in particular `"mixed"`, `"mixed-integer"` and
`"mixed-integer-float"` all do; any other input resolves through the 9-key
table, and to `none` when it is not one of the nine keys. -/
theorem from_pandas_api_type_spec :
    (∀ s : String, startswith s "mixed" = true →
      PandasDtype.from_pandas_api_type s = some PandasDtype.Object) ∧
    PandasDtype.from_pandas_api_type "mixed" = some PandasDtype.Object ∧
    PandasDtype.from_pandas_api_type "mixed-integer" =
      some PandasDtype.Object ∧
    PandasDtype.from_pandas_api_type "mixed-integer-float" =
      some PandasDtype.Object ∧
    PandasDtype.from_pandas_api_type "string" = some PandasDtype.String ∧
    PandasDtype.from_pandas_api_type "floating" = some PandasDtype.Float ∧
    PandasDtype.from_pandas_api_type "integer" = some PandasDtype.Int ∧
    PandasDtype.from_pandas_api_type "categorical" =
      some PandasDtype.Category ∧
    PandasDtype.from_pandas_api_type "boolean" = some PandasDtype.Bool ∧
    PandasDtype.from_pandas_api_type "datetime64" =
      some PandasDtype.DateTime ∧
    PandasDtype.from_pandas_api_type "datetime" = some PandasDtype.DateTime ∧
    PandasDtype.from_pandas_api_type "timedelta64" =
      some PandasDtype.Timedelta ∧
    PandasDtype.from_pandas_api_type "timedelta" =
      some PandasDtype.Timedelta ∧
    (∀ s : String, startswith s "mixed" = false →
      s ∉ ["string", "floating", "integer", "categorical", "boolean",
        "datetime64", "datetime", "timedelta64", "timedelta"] →
      PandasDtype.from_pandas_api_type s = none) := by
  refine ⟨?_, rfl, rfl, rfl, rfl, rfl, rfl, rfl, rfl, rfl, rfl, rfl, rfl, ?_⟩
  · intro s hs
    simp [PandasDtype.from_pandas_api_type, hs]
  · intro s h1 h2
    simp only [PandasDtype.from_pandas_api_type, h1, if_false,
      Bool.false_eq_true]
    apply lookup_str_eq_none
    intro p hp heq
    subst heq
    fin_cases hp <;> exact h2 (by decide)

/-- C6: `from_str_alias` and `from_pandas_api_type` are total: on every input
string they return either a variant or the explicit absent result `none`
(never an exception), unrecognized input yields `none`, and in particular
`from_str_alias "not-a-real-dtype"` and `from_pandas_api_type "unknown"` are
both `none`. -/
theorem lookups_never_raise :
    PandasDtype.from_str_alias "not-a-real-dtype" = none ∧
    PandasDtype.from_pandas_api_type "unknown" = none ∧
    (∀ s : String, PandasDtype.from_str_alias s = none ∨
      ∃ d, PandasDtype.from_str_alias s = some d) ∧
    (∀ s : String, PandasDtype.from_pandas_api_type s = none ∨
      ∃ d, PandasDtype.from_pandas_api_type s = some d) ∧
    (∀ s : String,
      s ∉ ["bool", "datetime64[ns]", "timedelta64[ns]", "category", "float",
        "float16", "float32", "float64", "int", "int8", "int16", "int32",
        "int64", "uint8", "uint16", "uint32", "uint64", "object", "string"] →
      PandasDtype.from_str_alias s = none) := by
  refine ⟨rfl, rfl, ?_, ?_, ?_⟩
  · intro s
    rcases h : PandasDtype.from_str_alias s with _ | d
    · exact Or.inl rfl
    · exact Or.inr ⟨d, rfl⟩
  · intro s
    rcases h : PandasDtype.from_pandas_api_type s with _ | d
    · exact Or.inl rfl
    · exact Or.inr ⟨d, rfl⟩
  · intro s hs
    apply lookup_str_eq_none
    intro p hp heq
    subst heq
    fin_cases hp <;> exact hs (by decide)

/-- C10: comparing a tag with a comparand that is neither a tag nor `None`
(a plain string or a plain integer, which lack the `value` and `str_alias`
attributes) raises an attribute-access error instead of returning `false`;
the comparison returns a boolean exactly when the comparand is a tag or
`None`. -/
theorem eq_raises_attribute_error :
    ∀ (env : DtypesEnv) (t : PandasDtype),
      (∀ s : String, ∃ attr : String,
        t.eq env (PyVal.pyStr s) = Except.error attr) ∧
      (∀ n : Int, ∃ attr : String,
        t.eq env (PyVal.pyInt n) = Except.error attr) ∧
      (∀ d : PandasDtype, ∃ b : Bool,
        t.eq env (PyVal.dtype d) = Except.ok b) ∧
      (∃ b : Bool, t.eq env PyVal.none = Except.ok b) := by
  intro env t
  refine ⟨fun s => ?_, fun n => ?_, fun d => ?_, ⟨false, rfl⟩⟩
  · by_cases h : t.value = "string"
    · exact ⟨"value",
        by simp [PandasDtype.eq, PyVal.getattr_value, Except.map, h]⟩
    · exact ⟨"str_alias",
        by simp [PandasDtype.eq, PyVal.getattr_str_alias, Except.map,
          beq_false_of_ne h]⟩
  · by_cases h : t.value = "string"
    · exact ⟨"value",
        by simp [PandasDtype.eq, PyVal.getattr_value, Except.map, h]⟩
    · exact ⟨"str_alias",
        by simp [PandasDtype.eq, PyVal.getattr_str_alias, Except.map,
          beq_false_of_ne h]⟩
  · by_cases h : t.value = "string"
    · exact ⟨t.value == d.value,
        by simp [PandasDtype.eq, PyVal.getattr_value, Except.map, h]⟩
    · exact ⟨t.str_alias env == d.str_alias env,
        by simp [PandasDtype.eq, PyVal.getattr_str_alias, Except.map,
          beq_false_of_ne h]⟩

end Pandera
